import Mathlib

/-!
Shallow embedding of the court cause-list scraper (src/utils.py and
src/server/main.py) and proofs about it.

The program drives a headless browser.  Everything the browser and the
remote page do is modelled as an explicit environment: which elements are
visible, what text OCR returns, which helper calls time out, what the
result rows and their CNR labels are.  Each Python function becomes a pure
Lean function from such an environment to its outputs: the trace of page
interactions it performs, the file-system effects (directories made, files
written), the records it yields, and whether it raises.

Playwright awaits that the source does not guard with a try/except
(page.goto, locator clicks, page.pdf, ...) would abort the whole run on
failure; those failures are outside the model.  The exceptions the source
does handle are modelled: TimeoutError in the choose_* / fill_value
helpers and in get_pdfs, UnidentifiedImageError in solve_captcha, and the
ValueError raised by pass_captcha.
-/

namespace ECourts

/-! ## Selector and limit constants (src/utils.py lines 31-50) -/

def LAW : String := "https://services.ecourts.gov.in/ecourtindia_v6/?p=cause_list/"

def CAPTCHA : String := "img#captcha_image"

def CLOSE : String := "div.modal-header.text-center.align-items-start button.btn-close"

def CNR_NUMBER : String := "span.fw-bold.text-uppercase.fs-5.me-2.text-danger"

def STATE : String := "#sess_state_code"

def DIST : String := "#sess_dist_code"

def COURT : String := "#court_complex_code"

def COURT_NAME : String := "#CL_court_no"

def DATE : String := "#causelist_date"

def CAPTCHA_CODE : String := "#cause_list_captcha_code"

def REFRESH : String := "img.refresh-btn"

def CIVIL : String := "button:has-text(\x27Civil\x27)"

def CRIMINAL : String := "button:has-text(\x27Criminal\x27)"

def VIEW : String := "a.someclass"

def BACK : String := "button#main_back_CauseList"

def MAX_FETCH : Nat := 5

def MAX_ITERATIONS : Nat := 10

/-- CaseType enum (src/utils.py lines 53-57): each member's value is the
CSS selector of the corresponding button. -/
inductive CaseType where
  | civil
  | criminal
deriving DecidableEq, Repr

def CaseType.value : CaseType → String
  | .civil => CIVIL
  | .criminal => CRIMINAL

/-- The named tuple `Dict(cnr, path)` yielded by get_pdfs
(src/utils.py lines 60-62). -/
structure Dict where
  cnr : String
  path : String
deriving DecidableEq, Repr

/-! ## pathlib model

`pathlib.PurePosixPath` is a flag (absolute?) plus a list of components.
`Path(s)` splits `s` on `/` and drops empty components; `joinpath`
concatenates, except that joining an absolute path replaces everything
before it; `.absolute()` prefixes the working directory onto a relative
path and leaves an absolute one alone (no `..` resolution in either). -/

structure PPath where
  absolute : Bool
  comps : List String
deriving DecidableEq, Repr

/-- Splitting a string on `/` and dropping the empty pieces, written as
structural recursion over the character list (`cur` is the current
component, reversed). -/
def splitCompsAux : List Char → List Char → List String
  | [], cur => if cur.isEmpty then [] else [String.mk cur.reverse]
  | c :: cs, cur =>
    if c = '/' then
      if cur.isEmpty then splitCompsAux cs []
      else String.mk cur.reverse :: splitCompsAux cs []
    else splitCompsAux cs (c :: cur)

/-- The components of a path string: split on `/`, empty components
dropped (as pathlib does). -/
def splitComps (s : String) : List String :=
  splitCompsAux s.data []

/-- Whether the path string is absolute: it starts with `/`. -/
def strIsAbs (s : String) : Bool :=
  match s.data with
  | [] => false
  | c :: _ => c = '/'

def strToPath (s : String) : PPath :=
  ⟨strIsAbs s, splitComps s⟩

def pjoin (p q : PPath) : PPath :=
  if q.absolute then q else ⟨p.absolute, p.comps ++ q.comps⟩

def pjoinStr (p : PPath) (s : String) : PPath :=
  pjoin p (strToPath s)

/-- Path.absolute(): prefix the working directory if the path is relative. -/
def pabs (cwd p : PPath) : PPath :=
  if p.absolute then p else ⟨cwd.absolute, cwd.comps ++ p.comps⟩

/-- str(Path): components joined by `/`, with a leading `/` when absolute. -/
def pathStr (p : PPath) : String :=
  (if p.absolute then "/" else "") ++ String.intercalate "/" p.comps

/-- One step of `.`/`..` resolution. -/
def normStep (acc : List String) (c : String) : List String :=
  if c = "." then acc else if c = ".." then acc.dropLast else acc ++ [c]

/-- Resolve `.` and `..` components (the file system does this when the
written path is opened; needed to state "the file lies under this
directory" honestly). -/
def normComps (cs : List String) : List String :=
  cs.foldl normStep []

/-- After resolving both against the working directory, `file` designates
something strictly inside directory `dir`. -/
def underDir (cwd dir file : PPath) : Bool :=
  let d := normComps (pabs cwd dir).comps
  let f := normComps (pabs cwd file).comps
  d.isPrefixOf f && d.length < f.length

/-! ## solve_captcha (src/utils.py lines 77-85)

`Image.open` on the captured bytes either yields an image (modelled as an
abstract value, here a String) or raises UnidentifiedImageError (modelled
as `none`); `pytesseract.image_to_string` is an oracle `ocr`. -/

def solve_captcha (opened : Option String) (ocr : String → String) : String :=
  match opened with
  | some image => ocr image
  | none => ""

/-! ## pass_captcha (src/utils.py lines 200-219)

`visible k` is what `close.first.is_visible()` returns at the k-th
evaluation of the loop condition, i.e. after k retries. -/

/-- The while loop of pass_captcha: returns the final value of `idx`.
Since `idx` starts at 0 and increases by exactly 1 per iteration, the
final value is also the number of iterations executed. -/
def passCaptchaLoop (visible : Nat → Bool) (idx : Nat) : Nat :=
  if h : visible idx ∧ idx < MAX_ITERATIONS then
    passCaptchaLoop visible (idx + 1)
  else
    idx
termination_by MAX_ITERATIONS - idx
decreasing_by
  have := h.2
  omega

/-- pass_captcha: run the retry loop from idx = 0, then raise ValueError
exactly when the final idx equals MAX_ITERATIONS. -/
def pass_captcha (visible : Nat → Bool) : Except String Unit :=
  if passCaptchaLoop visible 0 = MAX_ITERATIONS then
    Except.error "Failed to solve captcha. Please try again"
  else
    Except.ok ()

/-! ## ConnectionManager.broadcast (src/server/main.py lines 62-71)

`active_connections` is a finite map id ↦ socket, modelled as an
association list with distinct keys looked up by `List.lookup`; sockets
are abstract (Nat).  `send_json` may raise RuntimeError, which the method
catches; `sendOk` tells whether the send completed.  The result is the map
after the call together with the list of (socket, message) deliveries that
completed. -/

def broadcast (active_connections : List (String × Nat)) (idx : String)
    (message : String) (sendOk : Bool) :
    List (String × Nat) × List (Nat × String) :=
  match active_connections.lookup idx with
  | some socket => (active_connections, if sendOk then [(socket, message)] else [])
  | none => (active_connections, [])

/-! ## Page-interaction events

One constructor per kind of browser interaction the scraper performs.
The asyncio sleeps perform no page interaction and are not recorded. -/

inductive Event where
  | goto (url : String)
  | waitLoad
  | click (node : String)
  | select (node : String) (name : String) (found : Bool)
  | fill (node : String) (value : String)
  | fillFailed (node : String)
  | clickRecord (i : Nat)
  | readCnr (s : String)
  | exportPdf (p : PPath)
deriving DecidableEq, Repr

/-- The event is one of the four dependency-chain option selections. -/
def Event.isSelect : Event → Bool
  | .select _ _ _ => true
  | _ => false

/-- The event fills (or attempts to fill) the cause-list date input. -/
def Event.isDateFill : Event → Bool
  | .fill node _ => node == DATE
  | .fillFailed node => node == DATE
  | _ => false

/-- The event fills (or attempts to fill) the captcha code input. -/
def Event.isCaptchaFill : Event → Bool
  | .fill node _ => node == CAPTCHA_CODE
  | .fillFailed node => node == CAPTCHA_CODE
  | _ => false

/-- The event clicks the case-type (Civil/Criminal) button. -/
def Event.isCaseClick (case_type : CaseType) : Event → Bool
  | .click node => node == case_type.value
  | _ => false

/-- fill_value (src/utils.py lines 142-150): clear the input, then fill the
value; a TimeoutError aborts the helper (it is caught and only printed).
`ok = false` models the timeout, conservatively with no fill performed. -/
def fill_value_events (node value : String) (ok : Bool) : List Event :=
  if ok then [Event.fill node "", Event.fill node value] else [Event.fillFailed node]

/-! ## get_pdfs (src/utils.py lines 170-198)

`records` is the environment for `view.all()`: one entry per result-row
view link, in page order, carrying the inner text the CNR element shows
after that row is clicked, and — since the whole loop runs inside a
try/except TimeoutError — at which of the row's five steps a TimeoutError
occurs, if any.  The five steps of a row are
0 record.click, 1 CNR inner_text, 2 page.pdf, 3 back.click,
4 wait_for_load_state; the record is yielded after step 4. -/

structure RecordEnv where
  cnr : String
  timeoutAt : Option (Fin 5)
deriving DecidableEq, Repr

/-- The path handed to page.pdf for a record, before .absolute():
parent.joinpath(f"{name}.pdf"). -/
def recFile (parent : PPath) (r : RecordEnv) : PPath :=
  pjoinStr parent (r.cnr ++ ".pdf")

/-- The five page interactions of one fully processed result row. -/
def recEvents (cwd parent : PPath) (i : Nat) (r : RecordEnv) : List Event :=
  [Event.clickRecord i, Event.readCnr r.cnr,
   Event.exportPdf (pabs cwd (recFile parent r)),
   Event.click BACK, Event.waitLoad]

/-- The for-loop of get_pdfs: process rows in order until the first
TimeoutError; a fully processed row contributes its file write and its
yielded Dict, a row that times out contributes the interactions before
the timeout (and its file write, when the timeout hit after page.pdf)
and stops the loop. -/
def processRecords (cwd parent : PPath) (i : Nat) :
    List RecordEnv → List Event × List PPath × List Dict
  | [] => ([], [], [])
  | r :: rs =>
    match r.timeoutAt with
    | none =>
      let rest := processRecords cwd parent (i + 1) rs
      (recEvents cwd parent i r ++ rest.1,
       pabs cwd (recFile parent r) :: rest.2.1,
       Dict.mk r.cnr (pathStr (recFile parent r)) :: rest.2.2)
    | some t =>
      ((recEvents cwd parent i r).take t,
       if 2 < t.val then [pabs cwd (recFile parent r)] else [],
       [])

/-- The output directory Path(self.PATH).joinpath(state, dist, court,
court_name). -/
def scrapeDir (PATH state dist court court_name : String) : PPath :=
  pjoinStr (pjoinStr (pjoinStr (pjoinStr (strToPath PATH) state) dist) court) court_name

structure GetPdfsOut where
  events : List Event
  dirs : List PPath
  writes : List PPath
  yields : List Dict
deriving DecidableEq, Repr

/-- get_pdfs: when at least one view link is found, make the output
directory and run the export loop; otherwise do nothing. -/
def get_pdfs (cwd : PPath) (PATH state dist court court_name : String)
    (records : List RecordEnv) : GetPdfsOut :=
  let parent := scrapeDir PATH state dist court court_name
  if records.isEmpty then ⟨[], [], [], []⟩
  else
    let out := processRecords cwd parent 0 records
    ⟨out.1, [parent], out.2.1, out.2.2⟩

/-! ## Environments for the scraping entry points

A CourtEnv holds everything the browser decides during the per-court part
of a scrape (src/utils.py lines 248-262, and the same statements at lines
294-313): whether the court-name option was found, whether the date and
captcha fill_value calls time out, the outcome of each captcha-image
decode (`none` = UnidentifiedImageError), the modal visibility at each
pass_captcha check, and the result rows get_pdfs will find. -/

structure CourtEnv where
  loopModalVisible : Bool
  nameFound : Bool
  dateFillOk : Bool
  captchaFillOk : Bool
  preImg : Option String
  visible : Nat → Bool
  retryFillOk : Nat → Bool
  retryImg : Nat → Option String
  records : List RecordEnv

/-- Environment of one begin_scrape run: the initial modal visibility, the
outcomes of the three upper dependency-chain selections, the OCR oracle,
and the per-court environment. -/
structure ScrapeEnv where
  initModalVisible : Bool
  stateFound : Bool
  distFound : Bool
  complexFound : Bool
  ocr : String → String
  court : CourtEnv

/-- The body of the pass_captcha while loop as page interactions: per
iteration, close the modal, click the captcha refresh button, fill the
captcha input with the OCR of the freshly decoded image, and click the
case-type button (src/utils.py lines 206-217). -/
def passCaptchaEvents (visible : Nat → Bool) (retryFillOk : Nat → Bool)
    (retryImg : Nat → Option String) (ocr : String → String)
    (caseSel : String) (idx : Nat) : List Event :=
  if h : visible idx ∧ idx < MAX_ITERATIONS then
    [Event.click CLOSE, Event.click REFRESH] ++
      fill_value_events CAPTCHA_CODE (solve_captcha (retryImg idx) ocr) (retryFillOk idx) ++
      [Event.click caseSel] ++
      passCaptchaEvents visible retryFillOk retryImg ocr caseSel (idx + 1)
  else
    []
termination_by MAX_ITERATIONS - idx
decreasing_by
  have := h.2
  omega

/-- Outcome of a scraping entry point: its page interactions, file-system
effects, yielded records, and whether it raised (the ValueError of
pass_captcha propagates out of the generator). -/
structure RunOut where
  events : List Event
  dirs : List PPath
  writes : List PPath
  yields : List Dict
  result : Except String Unit

/-- The per-court statements shared verbatim by begin_scrape
(src/utils.py lines 248-262) and the loop body of begin_scrape_all
(lines 297-313): select the court name, fill the date twice (the raw
fill of line 249/299, then fill_value), prefill the captcha with one
solve_captcha attempt, click the case-type button, run pass_captcha, and
on success run get_pdfs.  A pass_captcha failure propagates: nothing
later runs. -/
def court_steps (cwd : PPath) (PATH : String) (ocr : String → String)
    (c : CourtEnv) (chosen_state chosen_dist chosen_court name chosen_date : String)
    (case_type : CaseType) : RunOut :=
  let sel := [Event.select COURT_NAME name c.nameFound]
  let dfs := Event.fill DATE chosen_date :: fill_value_events DATE chosen_date c.dateFillOk
  let cfs := fill_value_events CAPTCHA_CODE (solve_captcha c.preImg ocr) c.captchaFillOk
  let pcEvents := passCaptchaEvents c.visible c.retryFillOk c.retryImg ocr case_type.value 0
  match pass_captcha c.visible with
  | Except.error e =>
    ⟨sel ++ dfs ++ cfs ++ [Event.click case_type.value] ++ pcEvents, [], [], [], Except.error e⟩
  | Except.ok _ =>
    let g := get_pdfs cwd PATH chosen_state chosen_dist chosen_court name c.records
    ⟨sel ++ dfs ++ cfs ++ [Event.click case_type.value] ++ pcEvents ++ g.events,
     g.dirs, g.writes, g.yields, Except.ok ()⟩

/-- Events up to and including the court-complex selection, shared by both
entry points (src/utils.py lines 234-247 and 276-289): goto, wait for
load, close the modal when visible, select state, district and court
complex. -/
def upper_chain_events (initModalVisible stateFound distFound complexFound : Bool)
    (chosen_state chosen_dist chosen_court : String) : List Event :=
  [Event.goto LAW, Event.waitLoad] ++
    (if initModalVisible then [Event.click CLOSE] else []) ++
    [Event.select STATE chosen_state stateFound,
     Event.select DIST chosen_dist distFound,
     Event.select COURT chosen_court complexFound]

/-- begin_scrape (src/utils.py lines 221-262). -/
def begin_scrape (cwd : PPath) (PATH : String) (env : ScrapeEnv)
    (chosen_state chosen_dist chosen_court chosen_court_name chosen_date : String)
    (case_type : CaseType) : RunOut :=
  let s := court_steps cwd PATH env.ocr env.court chosen_state chosen_dist chosen_court
    chosen_court_name chosen_date case_type
  ⟨upper_chain_events env.initModalVisible env.stateFound env.distFound env.complexFound
      chosen_state chosen_dist chosen_court ++ s.events,
   s.dirs, s.writes, s.yields, s.result⟩

/-- One option element of the court-name select, as get_all_options sees
it: its value attribute (empty models a missing value), its inner text,
and whether the disabled attribute is present. -/
structure OptionEnv where
  value : String
  text : String
  disabled : Bool
deriving DecidableEq, Repr

/-- get_all_options (src/utils.py lines 152-168): keep the inner text of
every option with a non-empty value and no disabled attribute. -/
def get_all_options (options : List OptionEnv) : List String :=
  (options.filter (fun o => o.value ≠ "" && !o.disabled)).map (fun o => o.text)

/-- Environment of one begin_scrape_all run: the shared upper part, the
option elements of the court-name select, and one CourtEnv per loop
iteration. -/
structure AllEnv where
  initModalVisible : Bool
  stateFound : Bool
  distFound : Bool
  complexFound : Bool
  ocr : String → String
  options : List OptionEnv
  courts : Nat → CourtEnv

/-- Outcome of a begin_scrape_all run (events, yielded records, raised or
not). -/
structure AllOut where
  events : List Event
  yields : List Dict
  result : Except String Unit

/-- The for-loop of begin_scrape_all (src/utils.py lines 293-313): per
court name, close the modal when visible, then run the per-court
statements; a pass_captcha ValueError aborts the generator, keeping the
records yielded so far. -/
def all_loop (cwd : PPath) (PATH : String) (ocr : String → String)
    (courts : Nat → CourtEnv)
    (chosen_state chosen_dist chosen_court chosen_date : String)
    (case_type : CaseType) : List String → Nat → AllOut
  | [], _ => ⟨[], [], Except.ok ()⟩
  | name :: rest, i =>
    let c := courts i
    let closeEv := if c.loopModalVisible then [Event.click CLOSE] else []
    let s := court_steps cwd PATH ocr c chosen_state chosen_dist chosen_court name
      chosen_date case_type
    match s.result with
    | Except.error e => ⟨closeEv ++ s.events, s.yields, Except.error e⟩
    | Except.ok _ =>
      let r := all_loop cwd PATH ocr courts chosen_state chosen_dist chosen_court
        chosen_date case_type rest (i + 1)
      ⟨closeEv ++ s.events ++ r.events, s.yields ++ r.yields, r.result⟩

/-- begin_scrape_all (src/utils.py lines 264-313). -/
def begin_scrape_all (cwd : PPath) (PATH : String) (env : AllEnv)
    (chosen_state chosen_dist chosen_court chosen_date : String)
    (case_type : CaseType) : AllOut :=
  let l := all_loop cwd PATH env.ocr env.courts chosen_state chosen_dist chosen_court
    chosen_date case_type (get_all_options env.options) 0
  ⟨upper_chain_events env.initModalVisible env.stateFound env.distFound env.complexFound
      chosen_state chosen_dist chosen_court ++ l.events,
   l.yields, l.result⟩

/-- The ScrapeEnv a single-court run would see for iteration i of a
begin_scrape_all run. -/
def singleEnv (env : AllEnv) (i : Nat) : ScrapeEnv :=
  ⟨env.initModalVisible, env.stateFound, env.distFound, env.complexFound,
   env.ocr, env.courts i⟩

/-- A string that, as appended to a path by joinpath, stays a normal
relative name: not absolute, with at least one component and no `.` or
`..` component. -/
def safeRel (s : String) : Bool :=
  !(strIsAbs s) && !(splitComps s).isEmpty &&
    (splitComps s).all (fun c => c ≠ ".." && c ≠ ".")

/-- A concrete per-court environment: captcha accepted at once (the error
modal is never visible), one result row. -/
def demoCourt : CourtEnv :=
  ⟨false, true, true, true, some "img", fun _ => false, fun _ => true,
   fun _ => some "img", [⟨"MHPU010012342024", none⟩]⟩

/-- A concrete begin_scrape_all environment over two enabled court-name
options (and one disabled option that get_all_options must skip). -/
def demoAll : AllEnv :=
  ⟨false, true, true, true, fun s => s,
   [⟨"1", "Court A", false⟩, ⟨"", "Choose court", false⟩, ⟨"2", "Court B", true⟩,
    ⟨"3", "Court C", false⟩],
   fun _ => demoCourt⟩

/-! ## Basic facts about the captcha loop -/

theorem passCaptchaLoop_le (visible : Nat → Bool) :
    ∀ fuel idx, MAX_ITERATIONS - idx ≤ fuel → idx ≤ MAX_ITERATIONS →
      passCaptchaLoop visible idx ≤ MAX_ITERATIONS := by
  intro fuel
  induction fuel with
  | zero =>
    intro idx h1 h2
    unfold passCaptchaLoop
    split
    · rename_i h
      have := h.2
      exfalso
      omega
    · exact h2
  | succ n ih =>
    intro idx h1 h2
    unfold passCaptchaLoop
    split
    · rename_i h
      have := h.2
      exact ih (idx + 1) (by omega) (by omega)
    · exact h2

theorem passCaptchaLoop_all_visible (visible : Nat → Bool) :
    ∀ fuel idx, MAX_ITERATIONS - idx ≤ fuel → idx ≤ MAX_ITERATIONS →
      (∀ k, idx ≤ k → k < MAX_ITERATIONS → visible k = true) →
      passCaptchaLoop visible idx = MAX_ITERATIONS := by
  intro fuel
  induction fuel with
  | zero =>
    intro idx h1 h2 hv
    unfold passCaptchaLoop
    split
    · rename_i h
      have := h.2
      exfalso
      omega
    · omega
  | succ n ih =>
    intro idx h1 h2 hv
    unfold passCaptchaLoop
    split
    · rename_i h
      have := h.2
      exact ih (idx + 1) (by omega) (by omega) (fun k hk1 hk2 => hv k (by omega) hk2)
    · rename_i h
      by_contra hne
      exact h ⟨hv idx le_rfl (by omega), by omega⟩

theorem passCaptchaLoop_exit_early (visible : Nat → Bool) :
    ∀ fuel idx k, MAX_ITERATIONS - idx ≤ fuel → idx ≤ k → k < MAX_ITERATIONS →
      visible k = false →
      passCaptchaLoop visible idx < MAX_ITERATIONS := by
  intro fuel
  induction fuel with
  | zero =>
    intro idx k h1 h2 h3 h4
    unfold passCaptchaLoop
    split
    · rename_i h
      have := h.2
      exfalso
      omega
    · omega
  | succ n ih =>
    intro idx k h1 h2 h3 h4
    unfold passCaptchaLoop
    split
    · rename_i h
      have hik : idx ≠ k := by
        intro he
        rw [he] at h
        rw [h4] at h
        exact Bool.false_ne_true h.1
      have := h.2
      exact ih (idx + 1) k (by omega) (by omega) h3 h4
    · omega

/-! ## Claims C1, C2, C8, C9 -/

/-- C1: the CAPTCHA-solve retry loop of pass_captcha executes at most
MAX_ITERATIONS = 10 iterations.  The counter idx starts at 0 and increases
by exactly 1 per iteration, so the final value of idx counts the
iterations; the loop condition forces exit once idx reaches 10, and the
loop (a total Lean function) always terminates. -/
theorem C1_pass_captcha_at_most_ten_iterations (visible : Nat → Bool) :
    passCaptchaLoop visible 0 ≤ MAX_ITERATIONS ∧ MAX_ITERATIONS = 10 :=
  ⟨passCaptchaLoop_le visible MAX_ITERATIONS 0 (by omega) (by omega), rfl⟩

/-- C2 counterexample: take the run where the error modal is visible at the
checks after retries 0..9 and the 10th retry solves the captcha (the modal
is no longer visible at check 10).  The captcha is solved by a retry among
the up-to-10 allowed, so the claim says pass_captcha returns normally;
the code raises ValueError because the loop already used its 10
iterations. -/
theorem C2_counterexample :
    (fun k => decide (k < 10)) 10 = false ∧
    pass_captcha (fun k => decide (k < 10)) =
      Except.error "Failed to solve captcha. Please try again" := by
  constructor
  · decide
  · have h10 : passCaptchaLoop (fun k => decide (k < 10)) 0 = MAX_ITERATIONS :=
      passCaptchaLoop_all_visible _ MAX_ITERATIONS 0 (by omega) (by omega)
        (fun k _ hk2 => by
          simp only [decide_eq_true_eq]
          exact hk2)
    unfold pass_captcha
    rw [h10]
    simp

/-- C2 amended: pass_captcha returns normally if and only if the error
modal is no longer visible at one of the first ten checks of the loop
condition (checks 0..9, check k being made after k retries) — that is,
the captcha is solved before the loop uses all 10 iterations.  When the
modal is visible at all ten of those checks the loop runs 10 iterations
and pass_captcha raises ValueError, even if the 10th retry solved the
captcha. -/
theorem C2_pass_captcha_ok_iff (visible : Nat → Bool) :
    pass_captcha visible = Except.ok () ↔
      ∃ k < MAX_ITERATIONS, visible k = false := by
  constructor
  · intro h
    by_contra hno
    push_neg at hno
    have hloop : passCaptchaLoop visible 0 = MAX_ITERATIONS :=
      passCaptchaLoop_all_visible _ MAX_ITERATIONS 0 (by omega) (by omega)
        (fun k _ hk2 => by
          cases hb : visible k with
          | false => exact absurd hb (hno k hk2)
          | true => rfl)
    unfold pass_captcha at h
    rw [hloop] at h
    simp at h
  · intro h
    obtain ⟨k, hk, hvk⟩ := h
    have hlt := passCaptchaLoop_exit_early visible MAX_ITERATIONS 0 k
      (by omega) (by omega) hk hvk
    unfold pass_captcha
    rw [if_neg (by omega)]

/-- C8: when the captured captcha bytes do not decode to a valid image,
Image.open raises UnidentifiedImageError (modelled by `none`);
solve_captcha catches it and returns the empty string, and being a total
function into String it always returns a string. -/
theorem C8_solve_captcha_invalid_image (ocr : String → String) :
    solve_captcha none ocr = "" := rfl

/-- C9: broadcast leaves the active_connections map unchanged in all
cases; when the given id is absent nothing is delivered (and no error is
raised — broadcast is a total function, the RuntimeError that send_json
may raise being caught inside); and every delivery that does happen goes
to the single socket registered under the given id, so every connection
registered under a different id receives nothing. -/
theorem C9_broadcast_only_target (conns : List (String × Nat)) (idx : String)
    (msg : String) (sendOk : Bool) :
    (broadcast conns idx msg sendOk).1 = conns ∧
    (conns.lookup idx = none → (broadcast conns idx msg sendOk).2 = []) ∧
    (∀ s m, (s, m) ∈ (broadcast conns idx msg sendOk).2 →
      conns.lookup idx = some s ∧ m = msg) := by
  cases h : conns.lookup idx with
  | none =>
    refine ⟨?_, fun _ => ?_, ?_⟩
    · simp [broadcast, h]
    · simp [broadcast, h]
    · intro s m hm
      simp [broadcast, h] at hm
  | some socket =>
    refine ⟨?_, fun hnone => ?_, ?_⟩
    · simp [broadcast, h]
    · exact absurd hnone (by simp)
    · intro s m hm
      cases sendOk with
      | false => simp [broadcast, h] at hm
      | true =>
        simp [broadcast, h] at hm
        obtain ⟨hs, hmm⟩ := hm
        refine ⟨?_, hmm⟩
        rw [hs]

/-! ## Facts about the get_pdfs export loop -/

theorem processRecords_yields (cwd parent : PPath) :
    ∀ (records : List RecordEnv) (i : Nat),
      (processRecords cwd parent i records).2.2 =
        (records.takeWhile (fun r => r.timeoutAt.isNone)).map
          (fun r => Dict.mk r.cnr (pathStr (recFile parent r))) := by
  intro records
  induction records with
  | nil => intro i; rfl
  | cons r rs ih =>
    intro i
    cases ht : r.timeoutAt with
    | none => simp [processRecords, ht, List.takeWhile_cons, ih]
    | some t => simp [processRecords, ht, List.takeWhile_cons]

theorem processRecords_writes_mem (cwd parent : PPath) :
    ∀ (records : List RecordEnv) (i : Nat) (p : PPath),
      p ∈ (processRecords cwd parent i records).2.1 →
      ∃ r ∈ records, p = pabs cwd (recFile parent r) := by
  intro records
  induction records with
  | nil =>
    intro i p hp
    simp [processRecords] at hp
  | cons r rs ih =>
    intro i p hp
    cases ht : r.timeoutAt with
    | none =>
      simp only [processRecords, ht, List.mem_cons] at hp
      rcases hp with hp | hp
      · exact ⟨r, List.mem_cons_self r rs, hp⟩
      · obtain ⟨r1, hr1, hpr⟩ := ih (i + 1) p hp
        exact ⟨r1, List.mem_cons_of_mem r hr1, hpr⟩
    | some t =>
      simp only [processRecords, ht] at hp
      by_cases h2 : 2 < t.val
      · rw [if_pos h2] at hp
        simp at hp
        exact ⟨r, List.mem_cons_self r rs, hp⟩
      · rw [if_neg h2] at hp
        simp at hp

theorem processRecords_yields_mem (cwd parent : PPath) :
    ∀ (records : List RecordEnv) (i : Nat) (d : Dict),
      d ∈ (processRecords cwd parent i records).2.2 →
      ∃ r ∈ records, d.cnr = r.cnr ∧ d.path = pathStr (recFile parent r) ∧
        pabs cwd (recFile parent r) ∈ (processRecords cwd parent i records).2.1 := by
  intro records
  induction records with
  | nil =>
    intro i d hd
    simp [processRecords] at hd
  | cons r rs ih =>
    intro i d hd
    cases ht : r.timeoutAt with
    | none =>
      simp only [processRecords, ht, List.mem_cons] at hd
      rcases hd with hd | hd
      · refine ⟨r, List.mem_cons_self r rs, ?_, ?_, ?_⟩
        · rw [hd]
        · rw [hd]
        · simp [processRecords, ht]
      · obtain ⟨r1, hr1, h1, h2, h3⟩ := ih (i + 1) d hd
        refine ⟨r1, List.mem_cons_of_mem r hr1, h1, h2, ?_⟩
        simp only [processRecords, ht, List.mem_cons]
        exact Or.inr h3
    | some t =>
      simp [processRecords, ht] at hd

theorem get_pdfs_yields (cwd : PPath) (PATH state dist court court_name : String)
    (records : List RecordEnv) :
    (get_pdfs cwd PATH state dist court court_name records).yields =
      (records.takeWhile (fun r => r.timeoutAt.isNone)).map
        (fun r => Dict.mk r.cnr
          (pathStr (recFile (scrapeDir PATH state dist court court_name) r))) := by
  cases records with
  | nil => rfl
  | cons r rs => exact processRecords_yields cwd _ (r :: rs) 0

/-! ## Claims C4, C5, C10 -/

/-- C4: every PDF exported by get_pdfs is written at the path obtained by
joining the output directory with "<CNR>.pdf", <CNR> being the inner text
the on-page CNR element shows while that row is processed (the write uses
path.absolute(), hence the pabs); and each yielded record pairs exactly
that CNR string with str() of that same joined path — the path of the
file just written, whose absolutisation is the written path. -/
theorem C4_get_pdfs_filenames (cwd : PPath)
    (PATH state dist court court_name : String) (records : List RecordEnv) :
    (∀ p ∈ (get_pdfs cwd PATH state dist court court_name records).writes,
      ∃ r ∈ records,
        p = pabs cwd (pjoinStr (scrapeDir PATH state dist court court_name)
          (r.cnr ++ ".pdf"))) ∧
    (∀ d ∈ (get_pdfs cwd PATH state dist court court_name records).yields,
      ∃ r ∈ records, d.cnr = r.cnr ∧
        d.path = pathStr (pjoinStr (scrapeDir PATH state dist court court_name)
          (r.cnr ++ ".pdf")) ∧
        pabs cwd (pjoinStr (scrapeDir PATH state dist court court_name)
          (r.cnr ++ ".pdf")) ∈
          (get_pdfs cwd PATH state dist court court_name records).writes) := by
  cases records with
  | nil =>
    constructor
    · intro p hp
      simp [get_pdfs] at hp
    · intro d hd
      simp [get_pdfs] at hd
  | cons r rs =>
    constructor
    · intro p hp
      exact processRecords_writes_mem cwd _ (r :: rs) 0 p hp
    · intro d hd
      exact processRecords_yields_mem cwd _ (r :: rs) 0 d hd

/-- C5: get_pdfs is a per-record export loop: the records it yields are,
in page order, exactly one Dict per result row fully processed before any
timeout (the longest prefix of rows whose processing no TimeoutError
interrupts), so the number of yielded records equals the number of rows
processed. -/
theorem C5_get_pdfs_one_yield_per_row (cwd : PPath)
    (PATH state dist court court_name : String) (records : List RecordEnv) :
    (get_pdfs cwd PATH state dist court court_name records).yields =
      (records.takeWhile (fun r => r.timeoutAt.isNone)).map
        (fun r => Dict.mk r.cnr
          (pathStr (recFile (scrapeDir PATH state dist court court_name) r))) ∧
    (get_pdfs cwd PATH state dist court court_name records).yields.length =
      (records.takeWhile (fun r => r.timeoutAt.isNone)).length := by
  refine ⟨get_pdfs_yields cwd PATH state dist court court_name records, ?_⟩
  rw [get_pdfs_yields cwd PATH state dist court court_name records]
  exact List.length_map _ _

/-- C10: when get_pdfs finds no result-row view links it creates no
directory, writes no file and yields no records; and the output directory
is created exactly when at least one record is present. -/
theorem C10_get_pdfs_no_records (cwd : PPath)
    (PATH state dist court court_name : String) :
    get_pdfs cwd PATH state dist court court_name [] = ⟨[], [], [], []⟩ ∧
    ∀ records : List RecordEnv, records ≠ [] →
      (get_pdfs cwd PATH state dist court court_name records).dirs =
        [scrapeDir PATH state dist court court_name] := by
  refine ⟨rfl, ?_⟩
  intro records h
  cases records with
  | nil => exact absurd rfl h
  | cons r rs => rfl

/-! ## Facts about paths, and claim C6 -/

theorem normStep_foldl_good :
    ∀ (ds acc : List String), (∀ c ∈ ds, ¬(c = "..") ∧ ¬(c = ".")) →
      List.foldl normStep acc ds = acc ++ ds := by
  intro ds
  induction ds with
  | nil =>
    intro acc _
    simp
  | cons d ds ih =>
    intro acc hg
    have hd := hg d (List.mem_cons_self d ds)
    simp only [List.foldl_cons, normStep]
    rw [if_neg hd.2, if_neg hd.1]
    rw [ih (acc ++ [d]) (fun c hc => hg c (List.mem_cons_of_mem d hc))]
    simp

theorem normComps_append_good (cs ds : List String)
    (hg : ∀ c ∈ ds, ¬(c = "..") ∧ ¬(c = ".")) :
    normComps (cs ++ ds) = normComps cs ++ ds := by
  unfold normComps
  rw [List.foldl_append]
  exact normStep_foldl_good ds (List.foldl normStep [] cs) hg

theorem pabs_pjoin_rel (cwd parent q : PPath) (hq : q.absolute = false) :
    pabs cwd (pjoin parent q) =
      ⟨(pabs cwd parent).absolute, (pabs cwd parent).comps ++ q.comps⟩ := by
  cases hp : parent.absolute <;>
    simp [pjoin, pabs, hq, hp, List.append_assoc]

theorem pabs_idem (cwd : PPath) (p : PPath) (hcwd : cwd.absolute = true) :
    pabs cwd (pabs cwd p) = pabs cwd p := by
  cases hp : p.absolute <;> simp [pabs, hp, hcwd]

theorem isPrefixOf_append_self (d e : List String) :
    d.isPrefixOf (d ++ e) = true :=
  List.isPrefixOf_iff_prefix.mpr (List.prefix_append d e)

theorem underDir_pjoin (cwd parent q : PPath) (hcwd : cwd.absolute = true)
    (hq : q.absolute = false) (hne : q.comps ≠ [])
    (hg : ∀ c ∈ q.comps, ¬(c = "..") ∧ ¬(c = ".")) :
    underDir cwd parent (pabs cwd (pjoin parent q)) = true := by
  unfold underDir
  rw [pabs_idem cwd _ hcwd]
  rw [pabs_pjoin_rel cwd parent q hq]
  simp only []
  rw [normComps_append_good _ _ hg]
  simp only [Bool.and_eq_true, decide_eq_true_eq]
  constructor
  · exact isPrefixOf_append_self _ _
  · have hpos : 0 < q.comps.length := List.length_pos.mpr hne
    rw [List.length_append]
    omega

theorem safeRel_spec (s : String) (h : safeRel s = true) :
    (strToPath s).absolute = false ∧ (strToPath s).comps ≠ [] ∧
      ∀ c ∈ (strToPath s).comps, ¬(c = "..") ∧ ¬(c = ".") := by
  unfold safeRel at h
  rw [Bool.and_eq_true, Bool.and_eq_true] at h
  obtain ⟨⟨h1, h2⟩, h3⟩ := h
  refine ⟨?_, ?_, ?_⟩
  · show strIsAbs s = false
    cases hb : strIsAbs s with
    | false => rfl
    | true =>
      rw [hb] at h1
      exact absurd h1 (by decide)
  · show splitComps s ≠ []
    intro he
    rw [he] at h2
    exact absurd h2 (by decide)
  · intro c hc
    rw [List.all_eq_true] at h3
    have h3c := h3 c hc
    rw [Bool.and_eq_true] at h3c
    exact ⟨of_decide_eq_true h3c.1, of_decide_eq_true h3c.2⟩

/-- C6 counterexample: the CNR label read from the page is arbitrary page
text; when it forms an absolute path ("/evil" here), Path.joinpath
discards the parent directory entirely and the PDF is written at
/evil.pdf, outside the PATH/state/district/court/court_name tree, so the
claim fails as stated. -/
theorem C6_counterexample :
    ∃ p ∈ (get_pdfs ⟨true, ["home"]⟩ "static" "mh" "pune" "cc1" "court1"
        [⟨"/evil", none⟩]).writes,
      underDir ⟨true, ["home"]⟩ (scrapeDir "static" "mh" "pune" "cc1" "court1") p
        = false := by
  refine ⟨⟨true, ["evil.pdf"]⟩, ?_, ?_⟩
  · decide
  · decide

/-- C6 amended: every file written by get_pdfs whose CNR label, with
".pdf" appended, is a normal relative name (not an absolute path, at
least one component, no `.` or `..` component) is placed under the
four-level directory PATH/state/district/court/court_name, and the only
directory the scraper creates is that four-level directory itself.  (The
unamended claim fails for adversarial CNR text: an absolute CNR replaces
the whole parent path and a `..` component escapes the tree.) -/
theorem C6_writes_under_tree (cwd : PPath)
    (PATH state dist court court_name : String) (records : List RecordEnv)
    (hcwd : cwd.absolute = true)
    (hsafe : ∀ r ∈ records, safeRel (r.cnr ++ ".pdf") = true) :
    (∀ p ∈ (get_pdfs cwd PATH state dist court court_name records).writes,
      underDir cwd (scrapeDir PATH state dist court court_name) p = true) ∧
    (∀ dp ∈ (get_pdfs cwd PATH state dist court court_name records).dirs,
      dp = scrapeDir PATH state dist court court_name) := by
  constructor
  · intro p hp
    cases records with
    | nil => simp [get_pdfs] at hp
    | cons r rs =>
      obtain ⟨r1, hr1, hpr⟩ := processRecords_writes_mem cwd _ (r :: rs) 0 p hp
      have hs := safeRel_spec _ (hsafe r1 hr1)
      rw [hpr]
      exact underDir_pjoin cwd _ _ hcwd hs.1 hs.2.1 hs.2.2
  · intro dp hdp
    cases records with
    | nil => simp [get_pdfs] at hdp
    | cons r rs =>
      simp only [get_pdfs] at hdp
      simp at hdp
      exact hdp

/-- C6 witness: a concrete run with an ordinary CNR label, whose one
written file lies under the output tree. -/
theorem C6_witness :
    (∀ p ∈ (get_pdfs ⟨true, ["home"]⟩ "static" "mh" "pune" "cc1" "court1"
        [⟨"ABCD123", none⟩]).writes,
      underDir ⟨true, ["home"]⟩ (scrapeDir "static" "mh" "pune" "cc1" "court1") p
        = true) ∧
    (∀ dp ∈ (get_pdfs ⟨true, ["home"]⟩ "static" "mh" "pune" "cc1" "court1"
        [⟨"ABCD123", none⟩]).dirs,
      dp = scrapeDir "static" "mh" "pune" "cc1" "court1") :=
  C6_writes_under_tree ⟨true, ["home"]⟩ "static" "mh" "pune" "cc1" "court1"
    [⟨"ABCD123", none⟩] rfl (by decide)

/-! ## Facts about event traces, and claim C3 -/

theorem fill_value_events_mem (node value : String) (ok : Bool) :
    ∀ e ∈ fill_value_events node value ok,
      (∃ v, e = Event.fill node v) ∨ e = Event.fillFailed node := by
  intro e he
  cases ok with
  | true =>
    simp [fill_value_events] at he
    rcases he with h | h
    · exact Or.inl ⟨"", h⟩
    · exact Or.inl ⟨value, h⟩
  | false =>
    simp [fill_value_events] at he
    exact Or.inr he

theorem fill_value_events_not_select_not_date (value : String) (ok : Bool) :
    ∀ e ∈ fill_value_events CAPTCHA_CODE value ok,
      e.isSelect = false ∧ e.isDateFill = false := by
  intro e he
  rcases fill_value_events_mem CAPTCHA_CODE value ok e he with ⟨v, hv⟩ | hf
  · subst hv
    exact ⟨rfl, (by decide : (CAPTCHA_CODE == DATE) = false)⟩
  · subst hf
    exact ⟨rfl, (by decide : (CAPTCHA_CODE == DATE) = false)⟩

theorem passCaptchaEvents_mem (visible retryFillOk : Nat → Bool)
    (retryImg : Nat → Option String) (ocr : String → String) (caseSel : String) :
    ∀ fuel idx, MAX_ITERATIONS - idx ≤ fuel →
      ∀ e ∈ passCaptchaEvents visible retryFillOk retryImg ocr caseSel idx,
        e.isSelect = false ∧ e.isDateFill = false := by
  intro fuel
  induction fuel with
  | zero =>
    intro idx hle e he
    unfold passCaptchaEvents at he
    split at he
    · rename_i hcond
      have := hcond.2
      exfalso
      omega
    · simp at he
  | succ n ih =>
    intro idx hle e he
    unfold passCaptchaEvents at he
    split at he
    · rename_i hcond
      have hsplit : e = Event.click CLOSE ∨ e = Event.click REFRESH ∨
          e ∈ fill_value_events CAPTCHA_CODE
            (solve_captcha (retryImg idx) ocr) (retryFillOk idx) ∨
          e = Event.click caseSel ∨
          e ∈ passCaptchaEvents visible retryFillOk retryImg ocr caseSel (idx + 1) := by
        simp at he
        tauto
      rcases hsplit with h | h | h | h | h
      · subst h
        exact ⟨rfl, rfl⟩
      · subst h
        exact ⟨rfl, rfl⟩
      · exact fill_value_events_not_select_not_date _ _ e h
      · subst h
        exact ⟨rfl, rfl⟩
      · have := hcond.2
        exact ih (idx + 1) (by omega) e h
    · simp at he

theorem recEvents_mem (cwd parent : PPath) (i : Nat) (r : RecordEnv) :
    ∀ e ∈ recEvents cwd parent i r, e.isSelect = false ∧ e.isDateFill = false := by
  intro e he
  simp [recEvents] at he
  rcases he with h | h | h | h | h <;> subst h <;> exact ⟨rfl, rfl⟩

theorem processRecords_events_mem (cwd parent : PPath) :
    ∀ (records : List RecordEnv) (i : Nat),
      ∀ e ∈ (processRecords cwd parent i records).1,
        e.isSelect = false ∧ e.isDateFill = false := by
  intro records
  induction records with
  | nil =>
    intro i e he
    simp [processRecords] at he
  | cons r rs ih =>
    intro i e he
    cases ht : r.timeoutAt with
    | none =>
      simp only [processRecords, ht, List.mem_append] at he
      rcases he with h | h
      · exact recEvents_mem cwd parent i r e h
      · exact ih (i + 1) e h
    | some t =>
      simp only [processRecords, ht] at he
      exact recEvents_mem cwd parent i r e (List.take_subset _ _ he)

theorem get_pdfs_events_mem (cwd : PPath)
    (PATH state dist court court_name : String) (records : List RecordEnv) :
    ∀ e ∈ (get_pdfs cwd PATH state dist court court_name records).events,
      e.isSelect = false ∧ e.isDateFill = false := by
  cases records with
  | nil =>
    intro e he
    simp [get_pdfs] at he
  | cons r rs =>
    intro e he
    exact processRecords_events_mem cwd _ (r :: rs) 0 e he

/-- C3: in every run of begin_scrape the form interactions happen as one
fixed sequence in dependency-chain order — the trace decomposes as a
prefix with no form interaction, then the state, district, court-complex
and court-name selections in that order, then the (non-empty) date
fills, then the captcha fill, then the case-type button click; and no
selection or date fill ever occurs later (in particular, every captcha
fill and case-type click comes after all of them). -/
theorem C3_begin_scrape_order (cwd : PPath) (PATH : String) (env : ScrapeEnv)
    (chosen_state chosen_dist chosen_court chosen_court_name chosen_date : String)
    (case_type : CaseType) :
    ∃ pre dfs cfs post,
      (begin_scrape cwd PATH env chosen_state chosen_dist chosen_court
          chosen_court_name chosen_date case_type).events =
        pre ++
          [Event.select STATE chosen_state env.stateFound,
           Event.select DIST chosen_dist env.distFound,
           Event.select COURT chosen_court env.complexFound,
           Event.select COURT_NAME chosen_court_name env.court.nameFound] ++
          dfs ++ cfs ++ [Event.click case_type.value] ++ post ∧
      (∀ e ∈ pre, e.isSelect = false ∧ e.isDateFill = false ∧
        e.isCaptchaFill = false ∧ e.isCaseClick case_type = false) ∧
      dfs ≠ [] ∧ (∀ e ∈ dfs, e.isDateFill = true) ∧
      cfs ≠ [] ∧ (∀ e ∈ cfs, e.isCaptchaFill = true) ∧
      (∀ e ∈ post, e.isSelect = false ∧ e.isDateFill = false) := by
  refine ⟨[Event.goto LAW, Event.waitLoad] ++
      (if env.initModalVisible then [Event.click CLOSE] else []),
    Event.fill DATE chosen_date ::
      fill_value_events DATE chosen_date env.court.dateFillOk,
    fill_value_events CAPTCHA_CODE (solve_captcha env.court.preImg env.ocr)
      env.court.captchaFillOk,
    passCaptchaEvents env.court.visible env.court.retryFillOk env.court.retryImg
        env.ocr case_type.value 0 ++
      (match pass_captcha env.court.visible with
       | Except.error _ => []
       | Except.ok _ => (get_pdfs cwd PATH chosen_state chosen_dist chosen_court
          chosen_court_name env.court.records).events),
    ?_, ?_, ?_, ?_, ?_, ?_, ?_⟩
  · cases hpc : pass_captcha env.court.visible <;>
      simp [begin_scrape, court_steps, upper_chain_events, hpc, List.append_assoc]
  · intro e he
    have hshape : e = Event.goto LAW ∨ e = Event.waitLoad ∨ e = Event.click CLOSE := by
      cases him : env.initModalVisible <;> rw [him] at he <;> simp at he <;> tauto
    rcases hshape with h | h | h <;> subst h
    · exact ⟨rfl, rfl, rfl, by cases case_type <;> decide⟩
    · exact ⟨rfl, rfl, rfl, by cases case_type <;> decide⟩
    · exact ⟨rfl, rfl, rfl, by cases case_type <;> decide⟩
  · simp
  · intro e he
    rw [List.mem_cons] at he
    rcases he with h | h
    · subst h
      exact (by decide : (DATE == DATE) = true)
    · rcases fill_value_events_mem DATE chosen_date env.court.dateFillOk e h with
        ⟨v, hv⟩ | hf
      · subst hv
        exact (by decide : (DATE == DATE) = true)
      · subst hf
        exact (by decide : (DATE == DATE) = true)
  · cases env.court.captchaFillOk <;> simp [fill_value_events]
  · intro e he
    rcases fill_value_events_mem CAPTCHA_CODE _ env.court.captchaFillOk e he with
      ⟨v, hv⟩ | hf
    · subst hv
      exact (by decide : (CAPTCHA_CODE == CAPTCHA_CODE) = true)
    · subst hf
      exact (by decide : (CAPTCHA_CODE == CAPTCHA_CODE) = true)
  · intro e he
    rw [List.mem_append] at he
    rcases he with h | h
    · exact passCaptchaEvents_mem env.court.visible env.court.retryFillOk
        env.court.retryImg env.ocr case_type.value MAX_ITERATIONS 0 (by omega) e h
    · cases hpc : pass_captcha env.court.visible <;> rw [hpc] at h
      · simp at h
      · exact get_pdfs_events_mem cwd PATH chosen_state chosen_dist chosen_court
          chosen_court_name env.court.records e h

/-! ## Facts about begin_scrape_all, and claim C7 -/

theorem pass_captcha_never_visible :
    pass_captcha (fun _ => false) = Except.ok () := by
  have h : passCaptchaLoop (fun _ => false) 0 = 0 := by
    unfold passCaptchaLoop
    simp
  unfold pass_captcha
  rw [h]
  simp [MAX_ITERATIONS]

theorem court_steps_result (cwd : PPath) (PATH : String) (ocr : String → String)
    (c : CourtEnv) (st di co name date : String) (ct : CaseType) :
    (court_steps cwd PATH ocr c st di co name date ct).result =
      pass_captcha c.visible := by
  unfold court_steps
  cases hpc : pass_captcha c.visible <;> simp [hpc]

theorem all_loop_ok (cwd : PPath) (PATH : String) (ocr : String → String)
    (courts : Nat → CourtEnv) (st di co date : String) (ct : CaseType) :
    ∀ (names : List String) (i : Nat),
      (∀ j, j < names.length → pass_captcha ((courts (i + j)).visible) = Except.ok ()) →
      all_loop cwd PATH ocr courts st di co date ct names i =
        ⟨(List.enumFrom i names).flatMap (fun p =>
            (if (courts p.1).loopModalVisible then [Event.click CLOSE] else []) ++
              (court_steps cwd PATH ocr (courts p.1) st di co p.2 date ct).events),
          (List.enumFrom i names).flatMap (fun p =>
            (court_steps cwd PATH ocr (courts p.1) st di co p.2 date ct).yields),
          Except.ok ()⟩ := by
  intro names
  induction names with
  | nil =>
    intro i _
    rfl
  | cons name rest ih =>
    intro i hok
    have h0 : pass_captcha ((courts i).visible) = Except.ok () := by
      have := hok 0 (by simp)
      simpa using this
    have hres : (court_steps cwd PATH ocr (courts i) st di co name date ct).result =
        Except.ok () := by
      rw [court_steps_result]
      exact h0
    have hshift : ∀ j, j < rest.length →
        pass_captcha ((courts (i + 1 + j)).visible) = Except.ok () := by
      intro j hj
      have := hok (j + 1) (by simp; omega)
      rwa [show i + (j + 1) = i + 1 + j by omega] at this
    simp only [all_loop, hres]
    rw [ih (i + 1) hshift]
    simp [List.enumFrom, List.flatMap_cons, List.append_assoc]

/-- C7: begin_scrape_all equals begin_scrape extended with a
dependency-chain loop.  When every per-court captcha is solved within the
bound: its yields are the concatenation, in court-name option order, of
the yields begin_scrape would produce for each enabled court-name option
(with the corresponding per-iteration environment); it returns normally;
its trace is the shared upper-chain interactions followed by, per option
and sequentially one option after the other, the modal close (when
visible) and the same per-court steps begin_scrape performs; and
begin_scrape itself is exactly those upper-chain interactions followed by
those same per-court steps. -/
theorem C7_begin_scrape_all_refines (cwd : PPath) (PATH : String) (env : AllEnv)
    (chosen_state chosen_dist chosen_court chosen_date : String) (case_type : CaseType)
    (hok : ∀ i, i < (get_all_options env.options).length →
      pass_captcha ((env.courts i).visible) = Except.ok ()) :
    (begin_scrape_all cwd PATH env chosen_state chosen_dist chosen_court chosen_date
        case_type).yields =
      (List.enumFrom 0 (get_all_options env.options)).flatMap (fun p =>
        (begin_scrape cwd PATH (singleEnv env p.1) chosen_state chosen_dist chosen_court
          p.2 chosen_date case_type).yields) ∧
    (begin_scrape_all cwd PATH env chosen_state chosen_dist chosen_court chosen_date
        case_type).result = Except.ok () ∧
    (begin_scrape_all cwd PATH env chosen_state chosen_dist chosen_court chosen_date
        case_type).events =
      upper_chain_events env.initModalVisible env.stateFound env.distFound
          env.complexFound chosen_state chosen_dist chosen_court ++
        (List.enumFrom 0 (get_all_options env.options)).flatMap (fun p =>
          (if (env.courts p.1).loopModalVisible then [Event.click CLOSE] else []) ++
            (court_steps cwd PATH env.ocr (env.courts p.1) chosen_state chosen_dist
              chosen_court p.2 chosen_date case_type).events) ∧
    ∀ i name,
      (begin_scrape cwd PATH (singleEnv env i) chosen_state chosen_dist chosen_court
          name chosen_date case_type).events =
        upper_chain_events env.initModalVisible env.stateFound env.distFound
            env.complexFound chosen_state chosen_dist chosen_court ++
          (court_steps cwd PATH env.ocr (env.courts i) chosen_state chosen_dist
            chosen_court name chosen_date case_type).events := by
  have hl := all_loop_ok cwd PATH env.ocr env.courts chosen_state chosen_dist
    chosen_court chosen_date case_type (get_all_options env.options) 0
    (fun j hj => by simpa using hok j hj)
  refine ⟨?_, ?_, ?_, ?_⟩
  · show (all_loop cwd PATH env.ocr env.courts chosen_state chosen_dist chosen_court
      chosen_date case_type (get_all_options env.options) 0).yields = _
    rw [hl]
    rfl
  · show (all_loop cwd PATH env.ocr env.courts chosen_state chosen_dist chosen_court
      chosen_date case_type (get_all_options env.options) 0).result = _
    rw [hl]
  · show upper_chain_events env.initModalVisible env.stateFound env.distFound
        env.complexFound chosen_state chosen_dist chosen_court ++
      (all_loop cwd PATH env.ocr env.courts chosen_state chosen_dist chosen_court
        chosen_date case_type (get_all_options env.options) 0).events = _
    rw [hl]
  · intro i name
    rfl

/-- C7 witness: a concrete all-courts run over two enabled options, each
solved at once. -/
theorem C7_witness :
    (begin_scrape_all ⟨true, ["home"]⟩ "static" demoAll "mh" "pune" "cc1"
        "2025-01-01" CaseType.civil).yields =
      (List.enumFrom 0 (get_all_options demoAll.options)).flatMap (fun p =>
        (begin_scrape ⟨true, ["home"]⟩ "static" (singleEnv demoAll p.1) "mh" "pune"
          "cc1" p.2 "2025-01-01" CaseType.civil).yields) ∧
    (begin_scrape_all ⟨true, ["home"]⟩ "static" demoAll "mh" "pune" "cc1"
        "2025-01-01" CaseType.civil).result = Except.ok () ∧
    (begin_scrape_all ⟨true, ["home"]⟩ "static" demoAll "mh" "pune" "cc1"
        "2025-01-01" CaseType.civil).events =
      upper_chain_events demoAll.initModalVisible demoAll.stateFound demoAll.distFound
          demoAll.complexFound "mh" "pune" "cc1" ++
        (List.enumFrom 0 (get_all_options demoAll.options)).flatMap (fun p =>
          (if (demoAll.courts p.1).loopModalVisible then [Event.click CLOSE] else []) ++
            (court_steps ⟨true, ["home"]⟩ "static" demoAll.ocr (demoAll.courts p.1)
              "mh" "pune" "cc1" p.2 "2025-01-01" CaseType.civil).events) ∧
    ∀ i name,
      (begin_scrape ⟨true, ["home"]⟩ "static" (singleEnv demoAll i) "mh" "pune" "cc1"
          name "2025-01-01" CaseType.civil).events =
        upper_chain_events demoAll.initModalVisible demoAll.stateFound demoAll.distFound
            demoAll.complexFound "mh" "pune" "cc1" ++
          (court_steps ⟨true, ["home"]⟩ "static" demoAll.ocr (demoAll.courts i)
            "mh" "pune" "cc1" name "2025-01-01" CaseType.civil).events :=
  C7_begin_scrape_all_refines ⟨true, ["home"]⟩ "static" demoAll "mh" "pune" "cc1"
    "2025-01-01" CaseType.civil (fun i _ => pass_captcha_never_visible)

end ECourts
